import Mathlib

/-!
Verification of the rigid-body NVE integrator `TwoStepNVERigid`
(src/libhoomd/updaters/TwoStepNVERigid.cc) against its specification.

Scalars are modelled as exact rationals (`ℚ`), periodic image counters as
integers.  Per-body state is a `Body` record carrying its constituent
particles; the per-step entry points `integrateStepOne`, `integrateStepTwo`,
`setup`, the projector passes `set_xv` / `set_v`, the force aggregator
`computeForceAndTorque` and the degree-of-freedom counter `getNDOF` are
translated from the source.  The quaternion helpers declared in
`QuaternionMath.h` are not part of the source tree; they are modelled from
the specification and marked as such in their doc comments.
-/

/-- A 3-vector of exact rational scalars, standing for the x/y/z components
of HOOMD `Scalar3`/`Scalar4` data. -/
structure Vec3 where
  x : ℚ
  y : ℚ
  z : ℚ
deriving DecidableEq, Repr

/-- The zero vector. -/
def vzero : Vec3 := ⟨0, 0, 0⟩

/-- Componentwise vector addition. -/
def vadd (a b : Vec3) : Vec3 := ⟨a.x + b.x, a.y + b.y, a.z + b.z⟩

/-- Componentwise vector subtraction. -/
def vsub (a b : Vec3) : Vec3 := ⟨a.x - b.x, a.y - b.y, a.z - b.z⟩

/-- Scalar multiple of a vector. -/
def smulV (c : ℚ) (a : Vec3) : Vec3 := ⟨c * a.x, c * a.y, c * a.z⟩

/-- Dot product. -/
def dotV (a b : Vec3) : ℚ := a.x * b.x + a.y * b.y + a.z * b.z

/-- Cross product, as written out componentwise in the source
(`torque += r x f`, `angmom += r x (m v)`). -/
def crossV (a b : Vec3) : Vec3 :=
  ⟨a.y * b.z - a.z * b.y, a.z * b.x - a.x * b.z, a.x * b.y - a.y * b.x⟩

/-- Rotation of a body-frame vector into the space frame by the basis
columns `ex ey ez`, exactly the `xr/yr/zr` computation of the source
(TwoStepNVERigid.cc lines 687-695 and the analogous blocks in `setup`,
`computeForceAndTorque` and `set_v`). -/
def rotVec (ex ey ez v : Vec3) : Vec3 :=
  ⟨ex.x * v.x + ey.x * v.y + ez.x * v.z,
   ex.y * v.x + ey.y * v.y + ez.y * v.z,
   ex.z * v.x + ey.z * v.y + ez.z * v.z⟩

/-- A quaternion with scalar part `s` and vector part `(x, y, z)`
(HOOMD stores quaternions in a `Scalar4` with the scalar part first). -/
structure Quat where
  s : ℚ
  x : ℚ
  y : ℚ
  z : ℚ
deriving DecidableEq, Repr

/-- Modelled from the spec: `quatquat` of the missing header
`QuaternionMath.h`, the Hamilton product used for
`absolute orientation = body_orientation ⊗ local_orientation`. -/
def quatquat (a b : Quat) : Quat :=
  ⟨a.s * b.s - a.x * b.x - a.y * b.y - a.z * b.z,
   a.s * b.x + b.s * a.x + a.y * b.z - a.z * b.y,
   a.s * b.y + b.s * a.y + a.z * b.x - a.x * b.z,
   a.s * b.z + b.s * a.z + a.x * b.y - a.y * b.x⟩

/-- Modelled from the spec: `quatvec` of the missing header
`QuaternionMath.h`, multiplication of a quaternion with a vector promoted
to a pure quaternion, used to rotate the body-frame angular momentum
through the orientation quaternion when `setup` computes the
conjugate-momentum quaternion. -/
def quatvec (a : Quat) (v : Vec3) : Quat := quatquat a ⟨0, v.x, v.y, v.z⟩

/-- Modelled from the spec: `matrix_dot` of the missing header
`QuaternionMath.h`, which rotates a space-frame vector into the body frame
via the current basis (the transpose of the rotation matrix whose columns
are `ex ey ez`). -/
def matrix_dot (ex ey ez v : Vec3) : Vec3 := ⟨dotV ex v, dotV ey v, dotV ez v⟩

/-- Modelled from the spec: renormalisation of a quaternion
(`normalize` of the missing header `QuaternionMath.h`).  Renormalisation
exists only "to counter floating-point drift"; in exact rational
arithmetic a unit quaternion renormalises to itself, and the norm of a
general quaternion is irrational, so the exact-arithmetic model is the
identity map. -/
def normalizeQ (q : Quat) : Quat := q

/-- Rotation-matrix columns derived from an orientation quaternion
(`exyzFromQuaternion` of the missing header `QuaternionMath.h`), the
standard polynomial quaternion-to-matrix map.  Modelled from the spec:
"ex/ey/ez form an orthonormal right-handed basis consistent with
orientation", re-derived "after each partial rotation". -/
def exyzFromQuaternion (q : Quat) : Vec3 × Vec3 × Vec3 :=
  (⟨q.s * q.s + q.x * q.x - q.y * q.y - q.z * q.z,
    2 * (q.x * q.y + q.s * q.z),
    2 * (q.x * q.z - q.s * q.y)⟩,
   ⟨2 * (q.x * q.y - q.s * q.z),
    q.s * q.s - q.x * q.x + q.y * q.y - q.z * q.z,
    2 * (q.y * q.z + q.s * q.x)⟩,
   ⟨2 * (q.x * q.z + q.s * q.y),
    2 * (q.y * q.z - q.s * q.x),
    q.s * q.s - q.x * q.x - q.y * q.y + q.z * q.z⟩)

/-- Modelled from the spec: the body-frame angular-momentum components
used by `computeAngularVelocity` of the missing header
`QuaternionMath.h` — "rotate angular momentum into the body frame via the
current basis". -/
def bodyFrameAngMom (angmom ex ey ez : Vec3) : Vec3 :=
  matrix_dot ex ey ez angmom

/-- Modelled from the spec: the body-frame angular-velocity components of
`computeAngularVelocity` of the missing header `QuaternionMath.h` —
"divide each component by the corresponding principal moment, treating a
zero moment as making that component's angular velocity exactly zero
(never divide by zero)". -/
def bodyFrameAngVel (angmom inertia ex ey ez : Vec3) : Vec3 :=
  let m := bodyFrameAngMom angmom ex ey ez
  ⟨if inertia.x = 0 then 0 else m.x / inertia.x,
   if inertia.y = 0 then 0 else m.y / inertia.y,
   if inertia.z = 0 then 0 else m.z / inertia.z⟩

/-- Modelled from the spec: `computeAngularVelocity` of the missing header
`QuaternionMath.h` — body-frame components per `bodyFrameAngVel`, then
"reconstruct the space-frame angular velocity by rotating back through
the basis". -/
def computeAngularVelocity (angmom inertia ex ey ez : Vec3) : Vec3 :=
  let w := bodyFrameAngVel angmom inertia ex ey ez
  vadd (vadd (smulV w.x ex) (smulV w.y ey)) (smulV w.z ez)

/-- Modelled from the spec: one partial rotation of the orientation
quaternion about principal body axis `axis` (1, 2 or 3) over partial step
`dt'`: the basis and angular velocity are re-derived from the current
quaternion, the rotation angle is derived from that axis's angular
velocity component and the step size (`θ = dt'·ω`), and the quaternion is
rotated about the body axis.  The spec fixes only that the angle is
derived from `ω` and the step and vanishes with them; exact trigonometry
is transcendental, so the unit-modulus pair `(c, s)` of the rotation is
taken in the rational Cayley parametrisation
`c = (4 − θ²)/(4 + θ²)`, `s = 4θ/(4 + θ²)`, which satisfies `c² + s² = 1`
and is the identity exactly at `θ = 0`. -/
def rotStage (axis : ℕ) (dt' : ℚ) (angmom inertia : Vec3) (q : Quat) : Quat :=
  let e := exyzFromQuaternion q
  let w := bodyFrameAngVel angmom inertia e.1 e.2.1 e.2.2
  let θ := dt' * (if axis = 1 then w.x else if axis = 2 then w.y else w.z)
  let c := (4 - θ * θ) / (4 + θ * θ)
  let sn := (4 * θ) / (4 + θ * θ)
  quatquat q
    (if axis = 1 then ⟨c, sn, 0, 0⟩
     else if axis = 2 then ⟨c, 0, sn, 0⟩
     else ⟨c, 0, 0, sn⟩)

/-- Modelled from the spec: `advanceQuaternion` of the missing header
`QuaternionMath.h` — "update the orientation quaternion using a splitting
scheme that rotates sequentially about each principal body axis by an
angle derived from that axis's angular velocity component and the step
size, re-deriving angular velocity and basis vectors after each partial
rotation", in the time-reversible symmetric order 3, 2, 1, 2, 3 with half
steps on the outer axes, then "renormalize the quaternion after the full
update". -/
def advanceQuaternion (angmom inertia : Vec3) (dt : ℚ) (q : Quat) : Quat :=
  normalizeQ
    (rotStage 3 (dt / 2) angmom inertia
      (rotStage 2 (dt / 2) angmom inertia
        (rotStage 1 dt angmom inertia
          (rotStage 2 (dt / 2) angmom inertia
            (rotStage 3 (dt / 2) angmom inertia q)))))

/-- The periodic simulation box (`BoxDim`), with low and high bounds per
axis. -/
structure Box where
  xlo : ℚ
  xhi : ℚ
  ylo : ℚ
  yhi : ℚ
  zlo : ℚ
  zhi : ℚ
deriving DecidableEq, Repr

/-- One axis of the periodic wrap applied by the source to a coordinate
and its image counter: if the coordinate is at or beyond the high bound it
is reduced by one box length and the counter incremented; otherwise if it
is below the low bound it is increased by one box length and the counter
decremented; otherwise both are unchanged (TwoStepNVERigid.cc lines
354-385 and 713-744). -/
def wrapAxis (lo hi x : ℚ) (i : ℤ) : ℚ × ℤ :=
  if x ≥ hi then (x - (hi - lo), i + 1)
  else if x < lo then (x + (hi - lo), i - 1)
  else (x, i)

/-- One constituent particle of a rigid body.  `localPos` and
`localOrient` are the fixed body-frame position and orientation
(`particle_pos`, `particle_orientation`); `pos`, `vel`, `ix/iy/iz` and
`orient` are the particle's entries of the global particle-data arrays;
`oldPos` / `oldVel` are the cached previous-step unwrapped position and
velocity (`particle_oldpos`, `particle_oldvel`); `netForce` / `netTorque`
are the externally supplied per-particle net force and torque;
`netVirial` is the particle's entry of the global per-particle net virial
(`h_net_virial`) and `bodyVirial` its entry of the integrator's internal
staging array `m_virial` (`h_virial`). -/
structure Particle where
  mass : ℚ
  pos : Vec3
  vel : Vec3
  ix : ℤ
  iy : ℤ
  iz : ℤ
  orient : Quat
  localPos : Vec3
  localOrient : Quat
  oldPos : Vec3
  oldVel : Vec3
  netForce : Vec3
  netTorque : Vec3
  netVirial : ℚ
  bodyVirial : ℚ
deriving DecidableEq, Repr

/-- One rigid body of the active body group, together with its constituent
particles.  Fields mirror the rigid-data arrays of the source: mass,
principal moments of inertia, centre-of-mass position, velocity, force,
torque, orientation quaternion, space-frame angular momentum and angular
velocity, basis columns `ex/ey/ez`, per-axis periodic image counters, the
angular-momentum-initialized flag and the conjugate-momentum quaternion
`conjqm`. -/
structure Body where
  mass : ℚ
  inertia : Vec3
  com : Vec3
  vel : Vec3
  force : Vec3
  torque : Vec3
  orientation : Quat
  angmom : Vec3
  angvel : Vec3
  ex : Vec3
  ey : Vec3
  ez : Vec3
  imagex : ℤ
  imagey : ℤ
  imagez : ℤ
  angmomInit : Bool
  conjqm : Quat
  particles : List Particle
deriving DecidableEq, Repr

/-- The integrator-visible simulation state: the bodies of the active
rigid-body group (in group order) and the `m_first_step` flag. -/
structure SimState where
  firstStep : Bool
  bodies : List Body
deriving DecidableEq, Repr

/-- The velocity of a constituent particle projected from its body's
state: `v_particle = v_com + angvel × r` with `r` the basis-rotated fixed
local position (TwoStepNVERigid.cc lines 764-766 and 864-866). -/
def projVel (b : Body) (p : Particle) : Vec3 :=
  vadd b.vel (crossV b.angvel (rotVec b.ex b.ey b.ez p.localPos))

/-- The per-body state change of `integrateStepOne` (TwoStepNVERigid.cc
lines 340-402): half-kick the velocity by `(dt/2)·force/mass`, drift the
centre of mass by `vel·dt`, wrap each COM coordinate once against the box
updating the image counters, half-kick the angular momentum by
`(dt/2)·torque`, then advance orientation, basis and angular velocity
over the full step via `advanceQuaternion`. -/
def stepOneBody (dt : ℚ) (box : Box) (b : Body) : Body :=
  let dt_half := dt / 2
  let dtfm := dt_half / b.mass
  let v := vadd b.vel (smulV dtfm b.force)
  let c := vadd b.com (smulV dt v)
  let wx := wrapAxis box.xlo box.xhi c.x b.imagex
  let wy := wrapAxis box.ylo box.yhi c.y b.imagey
  let wz := wrapAxis box.zlo box.zhi c.z b.imagez
  let L := vadd b.angmom (smulV dt_half b.torque)
  let q := advanceQuaternion L b.inertia dt b.orientation
  let e := exyzFromQuaternion q
  { b with
    vel := v
    com := ⟨wx.1, wy.1, wz.1⟩
    imagex := wx.2
    imagey := wy.2
    imagez := wz.2
    angmom := L
    orientation := q
    ex := e.1
    ey := e.2.1
    ez := e.2.2
    angvel := computeAngularVelocity L b.inertia e.1 e.2.1 e.2.2 }

/-- The `set_xv` full-mode projection of one constituent particle
(TwoStepNVERigid.cc lines 677-781): position set to COM plus the rotated
local position, image counters copied from the body then wrapped once per
axis, orientation set to the renormalised product of body and local
orientation, the unwrapped position cached as `oldPos`, velocity
projected from body velocity and angular velocity, the implied-constraint
virial contribution stored (overwriting) into the staging entry
`bodyVirial`, and the new velocity cached as `oldVel`.  The global
per-particle net virial is not touched by this pass. -/
def set_xv_particle (dt : ℚ) (box : Box) (b : Body) (p : Particle) : Particle :=
  let dt_half := dt / 2
  let r := rotVec b.ex b.ey b.ez p.localPos
  let old_pos := p.oldPos
  let u := vadd b.com r
  let wx := wrapAxis box.xlo box.xhi u.x b.imagex
  let wy := wrapAxis box.ylo box.yhi u.y b.imagey
  let wz := wrapAxis box.zlo box.zhi u.z b.imagez
  let porient := normalizeQ (quatquat b.orientation p.localOrient)
  let newOldPos : Vec3 :=
    ⟨wx.1 + (box.xhi - box.xlo) * (wx.2 : ℚ),
     wy.1 + (box.yhi - box.ylo) * (wy.2 : ℚ),
     wz.1 + (box.zhi - box.zlo) * (wz.2 : ℚ)⟩
  let old_vel := p.oldVel
  let v := projVel b p
  let fc : Vec3 :=
    ⟨p.mass * (v.x - old_vel.x) / dt_half - p.netForce.x,
     p.mass * (v.y - old_vel.y) / dt_half - p.netForce.y,
     p.mass * (v.z - old_vel.z) / dt_half - p.netForce.z⟩
  { p with
    pos := ⟨wx.1, wy.1, wz.1⟩
    ix := wx.2
    iy := wy.2
    iz := wz.2
    orient := porient
    oldPos := newOldPos
    vel := v
    bodyVirial := 1/2 * (old_pos.x * fc.x + old_pos.y * fc.y + old_pos.z * fc.z) / 3
    oldVel := v }

/-- The `set_xv` pass over one body: every constituent particle is
projected in full mode; no body-level field is written. -/
def set_xvBody (dt : ℚ) (box : Box) (b : Body) : Body :=
  { b with particles := b.particles.map (set_xv_particle dt box b) }

/-- The `set_v` velocity-only projection of one constituent particle
(TwoStepNVERigid.cc lines 834-883): velocity projected from body velocity
and angular velocity, the staged first-half virial contribution and the
second-half implied-constraint contribution both accumulated into the
particle's global net-virial entry, and the new velocity cached as
`oldVel`. -/
def set_v_particle (dt : ℚ) (b : Body) (p : Particle) : Particle :=
  let dt_half := dt / 2
  let old_pos := p.oldPos
  let old_vel := p.oldVel
  let v := projVel b p
  let fc : Vec3 :=
    ⟨p.mass * (v.x - old_vel.x) / dt_half - p.netForce.x,
     p.mass * (v.y - old_vel.y) / dt_half - p.netForce.y,
     p.mass * (v.z - old_vel.z) / dt_half - p.netForce.z⟩
  { p with
    vel := v
    netVirial := p.netVirial + p.bodyVirial
      + 1/2 * (old_pos.x * fc.x + old_pos.y * fc.y + old_pos.z * fc.z) / 3
    oldVel := v }

/-- The `set_v` pass over one body: every constituent particle is
projected in velocity-only mode; no body-level field is written. -/
def set_vBody (dt : ℚ) (b : Body) : Body :=
  { b with particles := b.particles.map (set_v_particle dt b) }

/-- The per-body effect of `computeForceAndTorque` (TwoStepNVERigid.cc
lines 528-616): body force and torque are zeroed, then the per-particle
net forces are summed into the force, and `r × f` plus the particle's
native net torque into the torque, with `r` the basis-rotated fixed local
position. -/
def computeForceAndTorqueBody (b : Body) : Body :=
  { b with
    force := b.particles.foldl (fun acc p => vadd acc p.netForce) vzero
    torque := b.particles.foldl
      (fun acc p =>
        vadd acc (vadd (crossV (rotVec b.ex b.ey b.ez p.localPos) p.netForce) p.netTorque))
      vzero }

/-- The per-body kick of `integrateStepTwo` (TwoStepNVERigid.cc lines
448-463): half-kick velocity and angular momentum from the freshly
aggregated force and torque, then recompute the angular velocity. -/
def stepTwoKickBody (dt : ℚ) (b : Body) : Body :=
  let dt_half := dt / 2
  let dtfm := dt_half / b.mass
  let v := vadd b.vel (smulV dtfm b.force)
  let L := vadd b.angmom (smulV dt_half b.torque)
  { b with
    vel := v
    angmom := L
    angvel := computeAngularVelocity L b.inertia b.ex b.ey b.ez }

/-- The full per-body pipeline of `integrateStepTwo`: aggregate force and
torque, apply the second half-kick, then project particle velocities and
virial via `set_v`. -/
def integrateStepTwoBody (dt : ℚ) (b : Body) : Body :=
  set_vBody dt (stepTwoKickBody dt (computeForceAndTorqueBody b))

/-- The accumulation performed by the single particle scan of `setup`
(TwoStepNVERigid.cc lines 193-247) on the zeroed body accumulators:
mass-weighted particle velocity into the body velocity, net particle
force into the body force, `r × f` into the torque, and — only when the
body's angular momentum is uninitialised — `r × (m·v)` into the angular
momentum. -/
def setupScanStep (b : Body) (acc : Body) (p : Particle) : Body :=
  let r := rotVec b.ex b.ey b.ez p.localPos
  { acc with
    vel := vadd acc.vel (smulV p.mass p.vel)
    force := vadd acc.force p.netForce
    torque := vadd acc.torque (crossV r p.netForce)
    angmom := if b.angmomInit then acc.angmom
              else vadd acc.angmom (crossV r (smulV p.mass p.vel)) }

/-- The per-body effect of `setup` (TwoStepNVERigid.cc lines 163-273):
velocity, force and torque are zeroed unconditionally and the angular
momentum only when the initialization flag is false; the particle scan
accumulates into them; then the velocity is divided by the body mass, the
angular velocity derived from the angular momentum, and the
conjugate-momentum quaternion computed by rotating the body-frame angular
momentum through the orientation quaternion and scaling by 2. -/
def setupBody (b : Body) : Body :=
  let zeroed :=
    { b with
      vel := vzero
      force := vzero
      torque := vzero
      angmom := if b.angmomInit then b.angmom else vzero }
  let scanned := b.particles.foldl (setupScanStep b) zeroed
  let v := ⟨scanned.vel.x / b.mass, scanned.vel.y / b.mass, scanned.vel.z / b.mass⟩
  let cq := quatvec b.orientation (matrix_dot b.ex b.ey b.ez scanned.angmom)
  { scanned with
    vel := v
    angvel := computeAngularVelocity scanned.angmom b.inertia b.ex b.ey b.ez
    conjqm := ⟨2 * cq.s, 2 * cq.x, 2 * cq.y, 2 * cq.z⟩ }

/-- The one-time `setup` pass (TwoStepNVERigid.cc lines 116-284): with an
empty body group it returns before touching any state; otherwise each
body is set up and the projector invoked in velocity-only mode. -/
def setupState (dt : ℚ) (s : SimState) : SimState :=
  if s.bodies.isEmpty then s
  else { s with bodies := s.bodies.map (fun b => set_vBody dt (setupBody b)) }

/-- `integrateStepOne` (TwoStepNVERigid.cc lines 290-410): run `setup`
once on the first step and clear the first-step flag; with an empty body
group return without touching body or particle state; otherwise advance
every body and project every constituent particle in full mode. -/
def integrateStepOne (dt : ℚ) (box : Box) (s : SimState) : SimState :=
  let s1 := if s.firstStep then { setupState dt s with firstStep := false } else s
  if s1.bodies.isEmpty then s1
  else { s1 with bodies := s1.bodies.map (fun b => set_xvBody dt box (stepOneBody dt box b)) }

/-- `integrateStepTwo` (TwoStepNVERigid.cc lines 415-471): with an empty
body group return without touching any state; otherwise aggregate forces
and torques, apply the second half-kick and project particle velocities
in velocity-only mode. -/
def integrateStepTwo (dt : ℚ) (s : SimState) : SimState :=
  if s.bodies.isEmpty then s
  else { s with bodies := s.bodies.map (integrateStepTwoBody dt) }

/-- The per-body degree-of-freedom count of `getNDOF`
(TwoStepNVERigid.cc lines 498-515), mirroring the decrement chain of the
source: 6 in three dimensions minus one per zero principal moment,
otherwise 3 minus one if the out-of-plane moment is zero. -/
def dofOne (dim : ℕ) (mi : Vec3) : ℕ :=
  if dim = 3 then
    let d1 := 6
    let d2 := if mi.x = 0 then d1 - 1 else d1
    let d3 := if mi.y = 0 then d2 - 1 else d2
    if mi.z = 0 then d3 - 1 else d3
  else
    let d1 := 3
    if mi.z = 0 then d1 - 1 else d1

/-- `getNDOF` (TwoStepNVERigid.cc lines 478-522): sum the per-body DOF
contribution over the bodies of the active group that also qualify under
the query-group intersection (`query` holds at the body's group index).
The function reads only the moment-of-inertia data and returns a count;
it mutates no simulation state. -/
def getNDOF (dim : ℕ) (bodies : List Body) (query : ℕ → Bool) : ℕ :=
  (bodies.enum).foldl
    (fun acc ib => if query ib.1 then acc + dofOne dim ib.2.inertia else acc) 0

/-- The number of zero principal moments of inertia of a body. -/
def zeroMomentCount (mi : Vec3) : ℕ :=
  (if mi.x = 0 then 1 else 0) + (if mi.y = 0 then 1 else 0) + (if mi.z = 0 then 1 else 0)

/-- Written from the spec for comparison with the source: the virial
contribution of one projection pass, "let implied constraint force =
mass·(new velocity − cached old velocity)/h − external net force;
accumulate 0.5·(cached old position · implied constraint force)/3". -/
def virialContribSpec (h mass : ℚ) (vnew vold f oldPos : Vec3) : ℚ :=
  let fc := vsub ⟨mass * (vnew.x - vold.x) / h, mass * (vnew.y - vold.y) / h,
                  mass * (vnew.z - vold.z) / h⟩ f
  1/2 * dotV oldPos fc / 3

/-- The identity orientation quaternion. -/
def qId : Quat := ⟨1, 0, 0, 0⟩

/-- A concrete periodic box `[0,10)³` used in test scenarios. -/
def boxTen : Box := ⟨0, 10, 0, 10, 0, 10⟩

/-- A large concrete box in which no wrap occurs in the test scenarios. -/
def boxBig : Box := ⟨-1000, 1000, -1000, 1000, -1000, 1000⟩

/-- Case analysis of the single-pass periodic wrap: at or beyond the high
bound the coordinate drops by one box length and the counter rises by
one; below the low bound the coordinate rises by one box length and the
counter drops by one; inside the box both are untouched; and the counter
never moves by more than one. -/
theorem wrapAxis_spec (lo hi x : ℚ) (i : ℤ) (h : lo < hi) :
    (hi ≤ x → wrapAxis lo hi x i = (x - (hi - lo), i + 1)) ∧
    (x < lo → wrapAxis lo hi x i = (x + (hi - lo), i - 1)) ∧
    (lo ≤ x → x < hi → wrapAxis lo hi x i = (x, i)) ∧
    ((wrapAxis lo hi x i).2 - i).natAbs ≤ 1 := by
  unfold wrapAxis
  refine ⟨fun hx => by rw [if_pos hx], fun hx => ?_, fun hlo hhi => ?_, ?_⟩
  · have hnx : ¬ x ≥ hi := by push_neg; linarith
    rw [if_neg hnx, if_pos hx]
  · have hnx : ¬ x ≥ hi := by push_neg; linarith
    rw [if_neg hnx, if_neg (by push_neg; exact hlo)]
  · split_ifs <;> simp

/-- The body used in the C3 wrap scenario: centre of mass one unit below
the high x-bound of `boxTen`, moving outward by two units per step, no
force or torque, unit mass, zero angular momentum. -/
def bC3 : Body :=
  { mass := 1
    inertia := ⟨1, 1, 1⟩
    com := ⟨9, 0, 0⟩
    vel := ⟨2, 0, 0⟩
    force := vzero
    torque := vzero
    orientation := qId
    angmom := vzero
    angvel := vzero
    ex := ⟨1, 0, 0⟩
    ey := ⟨0, 1, 0⟩
    ez := ⟨0, 0, 1⟩
    imagex := 0
    imagey := 0
    imagez := 0
    angmomInit := true
    conjqm := qId
    particles := [] }

/-- C3: a single `StepOne` adjusts each axis's periodic image counter by
at most one: a drifted COM coordinate at or beyond the high bound is
reduced by exactly one box length with the counter incremented by one, a
coordinate below the low bound is increased by one box length with the
counter decremented by one, and otherwise both are unchanged; the COM
coordinate and counter of each axis are exactly the single-pass wrap of
the drifted coordinate; and the body starting at box-high minus ε moving
outward by 2ε ends inside `[lo, hi)` with its counter raised by exactly
one. -/
theorem nveRigid_C3_wrap_once (dt : ℚ) (box : Box) (b : Body) (lo hi x : ℚ) (i : ℤ)
    (hlh : lo < hi) :
    ((hi ≤ x → wrapAxis lo hi x i = (x - (hi - lo), i + 1)) ∧
     (x < lo → wrapAxis lo hi x i = (x + (hi - lo), i - 1)) ∧
     (lo ≤ x → x < hi → wrapAxis lo hi x i = (x, i)) ∧
     ((wrapAxis lo hi x i).2 - i).natAbs ≤ 1) ∧
    ((stepOneBody dt box b).com.x
        = (wrapAxis box.xlo box.xhi
            (b.com.x + dt * (b.vel.x + dt / 2 / b.mass * b.force.x)) b.imagex).1 ∧
     (stepOneBody dt box b).imagex
        = (wrapAxis box.xlo box.xhi
            (b.com.x + dt * (b.vel.x + dt / 2 / b.mass * b.force.x)) b.imagex).2 ∧
     (stepOneBody dt box b).com.y
        = (wrapAxis box.ylo box.yhi
            (b.com.y + dt * (b.vel.y + dt / 2 / b.mass * b.force.y)) b.imagey).1 ∧
     (stepOneBody dt box b).imagey
        = (wrapAxis box.ylo box.yhi
            (b.com.y + dt * (b.vel.y + dt / 2 / b.mass * b.force.y)) b.imagey).2 ∧
     (stepOneBody dt box b).com.z
        = (wrapAxis box.zlo box.zhi
            (b.com.z + dt * (b.vel.z + dt / 2 / b.mass * b.force.z)) b.imagez).1 ∧
     (stepOneBody dt box b).imagez
        = (wrapAxis box.zlo box.zhi
            (b.com.z + dt * (b.vel.z + dt / 2 / b.mass * b.force.z)) b.imagez).2) ∧
    ((stepOneBody 1 boxTen bC3).com.x = 1 ∧
     boxTen.xlo ≤ (stepOneBody 1 boxTen bC3).com.x ∧
     (stepOneBody 1 boxTen bC3).com.x < boxTen.xhi ∧
     (stepOneBody 1 boxTen bC3).imagex = bC3.imagex + 1) := by
  refine ⟨wrapAxis_spec lo hi x i hlh, ⟨rfl, rfl, rfl, rfl, rfl, rfl⟩, ?_⟩
  norm_num [stepOneBody, bC3, boxTen, wrapAxis, vadd, smulV, vzero]

/-- Concrete instantiation of the wrap theorem: a coordinate one unit
past the high bound wraps to one unit past the low bound and the counter
rises by one. -/
theorem nveRigid_C3_wrap_once_witness : wrapAxis (0 : ℚ) 10 11 3 = (1, 4) := by
  have h := (nveRigid_C3_wrap_once 1 boxTen bC3 0 10 11 3 (by norm_num)).1.1 (by norm_num)
  norm_num at h
  exact h

/-- C4: with a zero principal moment of inertia, the corresponding
body-frame angular-velocity component is exactly zero (the division is
never performed); this rule is the one invoked wherever angular velocity
is recomputed from angular momentum — by `setup`, by `integrateStepTwo`,
and inside `StepOne`'s orientation advance, each of which derives the
angular velocity of the updated angular momentum through
`computeAngularVelocity` / `bodyFrameAngVel`. -/
theorem nveRigid_C4_zero_moment (L I ex ey ez : Vec3) :
    (I.x = 0 → (bodyFrameAngVel L I ex ey ez).x = 0) ∧
    (I.y = 0 → (bodyFrameAngVel L I ex ey ez).y = 0) ∧
    (I.z = 0 → (bodyFrameAngVel L I ex ey ez).z = 0) ∧
    (∀ b : Body, (setupBody b).angvel
        = computeAngularVelocity (setupBody b).angmom b.inertia b.ex b.ey b.ez) ∧
    (∀ (dt : ℚ) (b : Body), (stepTwoKickBody dt b).angvel
        = computeAngularVelocity (stepTwoKickBody dt b).angmom b.inertia b.ex b.ey b.ez) ∧
    (∀ (dt : ℚ) (box : Box) (b : Body), (stepOneBody dt box b).angvel
        = computeAngularVelocity (stepOneBody dt box b).angmom b.inertia
            (stepOneBody dt box b).ex (stepOneBody dt box b).ey (stepOneBody dt box b).ez) := by
  refine ⟨fun h => ?_, fun h => ?_, fun h => ?_, fun b => rfl, fun dt b => rfl,
    fun dt box b => rfl⟩
  · simp [bodyFrameAngVel, h]
  · simp [bodyFrameAngVel, h]
  · simp [bodyFrameAngVel, h]

/-- Concrete instantiation: a fully singular inertia tensor yields zero
body-frame angular velocity in all three components. -/
theorem nveRigid_C4_zero_moment_witness :
    (bodyFrameAngVel ⟨1, 2, 3⟩ ⟨0, 0, 0⟩ ⟨1, 0, 0⟩ ⟨0, 1, 0⟩ ⟨0, 0, 1⟩).x = 0 ∧
    (bodyFrameAngVel ⟨1, 2, 3⟩ ⟨0, 0, 0⟩ ⟨1, 0, 0⟩ ⟨0, 1, 0⟩ ⟨0, 0, 1⟩).y = 0 ∧
    (bodyFrameAngVel ⟨1, 2, 3⟩ ⟨0, 0, 0⟩ ⟨1, 0, 0⟩ ⟨0, 1, 0⟩ ⟨0, 0, 1⟩).z = 0 :=
  ⟨(nveRigid_C4_zero_moment ⟨1, 2, 3⟩ ⟨0, 0, 0⟩ ⟨1, 0, 0⟩ ⟨0, 1, 0⟩ ⟨0, 0, 1⟩).1 rfl,
   (nveRigid_C4_zero_moment ⟨1, 2, 3⟩ ⟨0, 0, 0⟩ ⟨1, 0, 0⟩ ⟨0, 1, 0⟩ ⟨0, 0, 1⟩).2.1 rfl,
   (nveRigid_C4_zero_moment ⟨1, 2, 3⟩ ⟨0, 0, 0⟩ ⟨1, 0, 0⟩ ⟨0, 1, 0⟩ ⟨0, 0, 1⟩).2.2.1 rfl⟩

/-- C7: with an empty rigid-body group both integration phases are silent
no-ops: `integrateStepTwo` returns the state unchanged, and
`integrateStepOne` changes nothing but the integrator's own first-step
flag (the `setup` it triggers on the first step also returns before
touching any state). -/
theorem nveRigid_C7_empty_noop (dt : ℚ) (box : Box) (s : SimState)
    (h : s.bodies = []) :
    integrateStepTwo dt s = s ∧
    integrateStepOne dt box s = { s with firstStep := false } := by
  obtain ⟨fs, bodies⟩ := s
  simp only at h
  subst h
  cases fs <;> simp [integrateStepTwo, integrateStepOne, setupState]

/-- Concrete instantiation of the empty-group no-op on a first-step state
with no bodies. -/
theorem nveRigid_C7_empty_noop_witness :
    integrateStepTwo 1 ⟨true, []⟩ = (⟨true, []⟩ : SimState) ∧
    integrateStepOne 1 boxBig ⟨true, []⟩ = (⟨false, []⟩ : SimState) :=
  nveRigid_C7_empty_noop 1 boxBig ⟨true, []⟩ rfl

/-- A concrete constituent particle used in the C2/C5 scenarios: unit
mass at the body origin, cached old position one unit along x, zero
cached old velocity, no external force or torque, zero virial entries. -/
def pC2 : Particle :=
  { mass := 1
    pos := vzero
    vel := vzero
    ix := 0
    iy := 0
    iz := 0
    orient := qId
    localPos := vzero
    localOrient := qId
    oldPos := ⟨1, 0, 0⟩
    oldVel := vzero
    netForce := vzero
    netTorque := vzero
    netVirial := 0
    bodyVirial := 0 }

/-- A concrete body used in the C2/C5 scenarios: unit mass, translating
along x with unit velocity, not rotating, carrying `pC2` as its single
constituent particle. -/
def bC2 : Body :=
  { mass := 1
    inertia := ⟨1, 1, 1⟩
    com := vzero
    vel := ⟨1, 0, 0⟩
    force := vzero
    torque := vzero
    orientation := qId
    angmom := vzero
    angvel := vzero
    ex := ⟨1, 0, 0⟩
    ey := ⟨0, 1, 0⟩
    ez := ⟨0, 0, 1⟩
    imagex := 0
    imagey := 0
    imagez := 0
    angmomInit := true
    conjqm := qId
    particles := [pC2] }

/-- C2 fails as stated: the full-mode projection pass (`set_xv`) does NOT
accumulate its implied-constraint virial contribution into the particle's
entry of the global per-particle virial — at a concrete input whose
contribution is nonzero (`1/3`), the global entry is left at its old
value. -/
theorem nveRigid_C2_counterexample :
    (set_xv_particle 1 boxBig bC2 pC2).netVirial
      ≠ pC2.netVirial
        + virialContribSpec (1 / 2) pC2.mass (projVel bC2 pC2) pC2.oldVel
            pC2.netForce pC2.oldPos := by
  norm_num [set_xv_particle, virialContribSpec, projVel, pC2, bC2, boxBig, qId,
    vadd, vsub, smulV, crossV, rotVec, dotV, vzero]

/-- C2 amended: each projection pass computes the implied constraint
force `fc = mass·(new velocity − cached old velocity)/(dt/2) − external
net force` and the contribution `0.5·(cached old unwrapped position ·
fc)/3`; the full-mode pass after StepOne stores this contribution
(overwriting) into the particle's entry of the integrator-internal
staging virial and leaves the global per-particle virial untouched, while
the velocity-only pass after StepTwo adds both the staged entry and its
own contribution into the particle's entry of the global per-particle
virial. -/
theorem nveRigid_C2_virial (dt : ℚ) (box : Box) (b : Body) (p : Particle) :
    (set_xv_particle dt box b p).bodyVirial
        = virialContribSpec (dt / 2) p.mass (projVel b p) p.oldVel p.netForce p.oldPos ∧
    (set_xv_particle dt box b p).netVirial = p.netVirial ∧
    (set_v_particle dt b p).netVirial
        = p.netVirial + p.bodyVirial
          + virialContribSpec (dt / 2) p.mass (projVel b p) p.oldVel p.netForce p.oldPos := by
  refine ⟨?_, rfl, ?_⟩ <;>
    simp [set_xv_particle, set_v_particle, virialContribSpec, dotV, vsub]

/-- Folding a guarded accumulation over a list equals the initial value
plus the sum of the accumulated quantity over the filtered list. -/
theorem foldl_if_add_sum {α : Type} (f : α → ℕ) (q : α → Bool) :
    ∀ (l : List α) (n : ℕ),
      l.foldl (fun acc a => if q a then acc + f a else acc) n
        = n + ((l.filter q).map f).sum := by
  intro l
  induction l with
  | nil => intro n; simp
  | cons a l ih =>
    intro n
    by_cases hq : q a
    · simp [List.foldl_cons, hq, ih, List.filter_cons, Nat.add_assoc]
    · simp [List.foldl_cons, hq, ih, List.filter_cons]

/-- The decrement chain of the source equals the closed-form count:
`6` minus the number of zero principal moments in three dimensions,
otherwise `3` minus one if the out-of-plane moment is zero. -/
theorem dofOne_eq (dim : ℕ) (mi : Vec3) :
    dofOne dim mi
      = if dim = 3 then 6 - zeroMomentCount mi
        else 3 - (if mi.z = 0 then 1 else 0) := by
  unfold dofOne zeroMomentCount
  split_ifs <;> norm_num

/-- C6: `getNDOF` returns the sum, over the qualifying bodies (those of
the active body group whose index also satisfies the query-group
membership), of `6` minus the number of zero principal moments in three
dimensions, and `3` minus one if the out-of-plane moment is zero in two
dimensions; it is a pure count and mutates no simulation state.  The
concrete conjuncts record the claim's 6/5/4 and 3/2 per-body values. -/
theorem nveRigid_C6_ndof (dim : ℕ) (bodies : List Body) (query : ℕ → Bool) :
    getNDOF dim bodies query
      = (((bodies.enum).filter (fun ib => query ib.1)).map
          (fun ib => if dim = 3 then 6 - zeroMomentCount ib.2.inertia
                     else 3 - (if ib.2.inertia.z = 0 then 1 else 0))).sum ∧
    dofOne 3 ⟨1, 2, 3⟩ = 6 ∧ dofOne 3 ⟨0, 2, 3⟩ = 5 ∧ dofOne 3 ⟨0, 0, 3⟩ = 4 ∧
    dofOne 2 ⟨1, 2, 3⟩ = 3 ∧ dofOne 2 ⟨1, 2, 0⟩ = 2 := by
  refine ⟨?_, by norm_num [dofOne], by norm_num [dofOne], by norm_num [dofOne],
    by norm_num [dofOne], by norm_num [dofOne]⟩
  unfold getNDOF
  refine (foldl_if_add_sum (fun ib => dofOne dim ib.2.inertia)
    (fun ib => query ib.1) bodies.enum 0).trans ?_
  simp [dofOne_eq]

/-- Sum of a list of vectors. -/
def vsum (l : List Vec3) : Vec3 := l.foldr vadd vzero

/-- Unfolding of `vsum` on a cons cell. -/
theorem vsum_cons (v : Vec3) (l : List Vec3) : vsum (v :: l) = vadd v (vsum l) := rfl

/-- The zero vector is a right unit for vector addition. -/
theorem vadd_vzero_right (a : Vec3) : vadd a vzero = a := by
  cases a; simp [vadd, vzero]

/-- The zero vector is a left unit for vector addition. -/
theorem vadd_vzero_left (a : Vec3) : vadd vzero a = a := by
  cases a; simp [vadd, vzero]

/-- Vector addition is associative. -/
theorem vaddAssoc (a b c : Vec3) : vadd (vadd a b) c = vadd a (vadd b c) := by
  cases a; cases b; cases c; simp [vadd, add_assoc]

/-- A projection of the `setup` particle scan that the scan step advances
by a fixed per-particle vector folds to the initial value plus the sum of
those vectors. -/
theorem foldl_scan_vadd (b : Body) (proj : Body → Vec3) (f : Particle → Vec3)
    (hstep : ∀ acc p, proj (setupScanStep b acc p) = vadd (proj acc) (f p)) :
    ∀ (l : List Particle) (acc : Body),
      proj (l.foldl (setupScanStep b) acc) = vadd (proj acc) (vsum (l.map f)) := by
  intro l
  induction l with
  | nil => intro acc; simp [vsum, vadd_vzero_right]
  | cons p l ih =>
    intro acc
    rw [List.foldl_cons, ih, hstep, List.map_cons, vsum_cons, vaddAssoc]

/-- With the angular-momentum-initialized flag set, the `setup` particle
scan never touches the angular-momentum accumulator. -/
theorem foldl_scan_angmom_const (b : Body) (hb : b.angmomInit = true) :
    ∀ (l : List Particle) (acc : Body),
      (l.foldl (setupScanStep b) acc).angmom = acc.angmom := by
  intro l
  induction l with
  | nil => intro _; rfl
  | cons p l ih =>
    intro acc
    rw [List.foldl_cons, ih]
    simp [setupScanStep, hb]

/-- C8: `setup` zeroes a body's angular momentum and accumulates
`Σ r × (m·v)` over its constituent particles into it exactly when the
angular-momentum-initialized flag is false; when the flag is true the
body's angular momentum is left exactly unchanged.  Velocity, force and
torque are rebuilt from zero unconditionally — the result never depends
on their previous values: force becomes `Σ f`, torque `Σ r × f`, and
velocity `(Σ m·v)/M`. -/
theorem nveRigid_C8_setup_angmom (b : Body) :
    (setupBody b).angmom
      = (if b.angmomInit then b.angmom
         else vsum (b.particles.map
             (fun p => crossV (rotVec b.ex b.ey b.ez p.localPos) (smulV p.mass p.vel)))) ∧
    (setupBody b).force = vsum (b.particles.map Particle.netForce) ∧
    (setupBody b).torque
      = vsum (b.particles.map
          (fun p => crossV (rotVec b.ex b.ey b.ez p.localPos) p.netForce)) ∧
    (setupBody b).vel.x
      = (vsum (b.particles.map (fun p => smulV p.mass p.vel))).x / b.mass ∧
    (setupBody b).vel.y
      = (vsum (b.particles.map (fun p => smulV p.mass p.vel))).y / b.mass ∧
    (setupBody b).vel.z
      = (vsum (b.particles.map (fun p => smulV p.mass p.vel))).z / b.mass := by
  have hforce : (setupBody b).force
      = vadd vzero (vsum (b.particles.map Particle.netForce)) := by
    simp only [setupBody]
    exact foldl_scan_vadd b Body.force Particle.netForce (fun acc p => rfl) b.particles _
  have hvelsum : (b.particles.foldl (setupScanStep b)
        { b with vel := vzero, force := vzero, torque := vzero,
                 angmom := if b.angmomInit then b.angmom else vzero }).vel
      = vadd vzero (vsum (b.particles.map (fun p => smulV p.mass p.vel))) :=
    foldl_scan_vadd b Body.vel (fun p => smulV p.mass p.vel) (fun acc p => rfl)
      b.particles _
  have htorque : (setupBody b).torque
      = vadd vzero (vsum (b.particles.map
          (fun p => crossV (rotVec b.ex b.ey b.ez p.localPos) p.netForce))) := by
    simp only [setupBody]
    exact foldl_scan_vadd b Body.torque
      (fun p => crossV (rotVec b.ex b.ey b.ez p.localPos) p.netForce)
      (fun acc p => rfl) b.particles _
  refine ⟨?_, by rw [hforce, vadd_vzero_left], by rw [htorque, vadd_vzero_left],
    ?_, ?_, ?_⟩
  · cases hb : b.angmomInit
    · have h := foldl_scan_vadd b Body.angmom
        (fun p => crossV (rotVec b.ex b.ey b.ez p.localPos) (smulV p.mass p.vel))
        (fun acc p => by simp [setupScanStep, hb]) b.particles
        { b with vel := vzero, force := vzero, torque := vzero,
                 angmom := if b.angmomInit then b.angmom else vzero }
      simp only [setupBody]
      rw [h]
      simp [hb, vadd_vzero_left]
    · have h := foldl_scan_angmom_const b hb b.particles
        { b with vel := vzero, force := vzero, torque := vzero,
                 angmom := if b.angmomInit then b.angmom else vzero }
      simp only [setupBody]
      rw [h]
      simp [hb]
  · simp only [setupBody]; rw [hvelsum, vadd_vzero_left]
  · simp only [setupBody]; rw [hvelsum, vadd_vzero_left]
  · simp only [setupBody]; rw [hvelsum, vadd_vzero_left]

/-- C10: the velocity-only projection pass `set_v` (invoked after
StepTwo and at the end of `setup`) writes only each constituent
particle's velocity, its cached old-velocity, and its global net-virial
entry: every body-level field is left unchanged, every particle's
position, periodic image counters, orientation, cached old position and
remaining fields are left unchanged, and the written velocity and
old-velocity cache both receive the projected velocity
`v_com + angvel × r`. -/
theorem nveRigid_C10_set_v_frame (dt : ℚ) (b : Body) :
    (set_vBody dt b).com = b.com ∧
    (set_vBody dt b).vel = b.vel ∧
    (set_vBody dt b).force = b.force ∧
    (set_vBody dt b).torque = b.torque ∧
    (set_vBody dt b).orientation = b.orientation ∧
    (set_vBody dt b).angmom = b.angmom ∧
    (set_vBody dt b).angvel = b.angvel ∧
    (set_vBody dt b).ex = b.ex ∧
    (set_vBody dt b).ey = b.ey ∧
    (set_vBody dt b).ez = b.ez ∧
    (set_vBody dt b).imagex = b.imagex ∧
    (set_vBody dt b).imagey = b.imagey ∧
    (set_vBody dt b).imagez = b.imagez ∧
    (set_vBody dt b).mass = b.mass ∧
    (set_vBody dt b).inertia = b.inertia ∧
    (set_vBody dt b).angmomInit = b.angmomInit ∧
    (set_vBody dt b).conjqm = b.conjqm ∧
    (set_vBody dt b).particles.map Particle.pos = b.particles.map Particle.pos ∧
    (set_vBody dt b).particles.map Particle.ix = b.particles.map Particle.ix ∧
    (set_vBody dt b).particles.map Particle.iy = b.particles.map Particle.iy ∧
    (set_vBody dt b).particles.map Particle.iz = b.particles.map Particle.iz ∧
    (set_vBody dt b).particles.map Particle.orient = b.particles.map Particle.orient ∧
    (set_vBody dt b).particles.map Particle.oldPos = b.particles.map Particle.oldPos ∧
    (set_vBody dt b).particles.map Particle.localPos = b.particles.map Particle.localPos ∧
    (set_vBody dt b).particles.map Particle.localOrient
      = b.particles.map Particle.localOrient ∧
    (set_vBody dt b).particles.map Particle.mass = b.particles.map Particle.mass ∧
    (set_vBody dt b).particles.map Particle.netForce = b.particles.map Particle.netForce ∧
    (set_vBody dt b).particles.map Particle.netTorque
      = b.particles.map Particle.netTorque ∧
    (set_vBody dt b).particles.map Particle.bodyVirial
      = b.particles.map Particle.bodyVirial ∧
    (set_vBody dt b).particles.map Particle.vel = b.particles.map (fun p => projVel b p) ∧
    (set_vBody dt b).particles.map Particle.oldVel
      = b.particles.map (fun p => projVel b p) := by
  simp [set_vBody, set_v_particle, List.map_map, Function.comp]

/-- C5 fails as stated: `integrateStepTwo` also mutates each constituent
particle's cached old-velocity (overwriting it with the newly projected
velocity), a field absent from the claim's list of mutated state — at a
concrete input the old-velocity cache changes. -/
theorem nveRigid_C5_counterexample :
    (integrateStepTwoBody 1 bC2).particles.map Particle.oldVel
      ≠ bC2.particles.map Particle.oldVel := by
  norm_num [integrateStepTwoBody, set_vBody, set_v_particle, stepTwoKickBody,
    computeForceAndTorqueBody, computeAngularVelocity, bodyFrameAngVel,
    bodyFrameAngMom, matrix_dot, projVel, bC2, pC2, qId, vadd, vsub, smulV,
    crossV, rotVec, dotV, vzero]

/-- C5 amended: `integrateStepTwo` leaves each body's COM position,
orientation quaternion, basis vectors, periodic image counters, mass,
inertia, flag and conjugate-momentum quaternion unchanged, and leaves
every constituent particle's position, periodic image counters,
orientation, fixed local data, cached old position, mass, inputs and
staged virial entry unchanged; it mutates only the body force/torque
accumulators, body velocity, angular momentum, angular velocity, and the
projected particle velocities, their cached old-velocities, and the
per-particle net virial. -/
theorem nveRigid_C5_steptwo_frame (dt : ℚ) (b : Body) :
    (integrateStepTwoBody dt b).com = b.com ∧
    (integrateStepTwoBody dt b).orientation = b.orientation ∧
    (integrateStepTwoBody dt b).ex = b.ex ∧
    (integrateStepTwoBody dt b).ey = b.ey ∧
    (integrateStepTwoBody dt b).ez = b.ez ∧
    (integrateStepTwoBody dt b).imagex = b.imagex ∧
    (integrateStepTwoBody dt b).imagey = b.imagey ∧
    (integrateStepTwoBody dt b).imagez = b.imagez ∧
    (integrateStepTwoBody dt b).mass = b.mass ∧
    (integrateStepTwoBody dt b).inertia = b.inertia ∧
    (integrateStepTwoBody dt b).angmomInit = b.angmomInit ∧
    (integrateStepTwoBody dt b).conjqm = b.conjqm ∧
    (integrateStepTwoBody dt b).particles.map Particle.pos
      = b.particles.map Particle.pos ∧
    (integrateStepTwoBody dt b).particles.map Particle.ix
      = b.particles.map Particle.ix ∧
    (integrateStepTwoBody dt b).particles.map Particle.iy
      = b.particles.map Particle.iy ∧
    (integrateStepTwoBody dt b).particles.map Particle.iz
      = b.particles.map Particle.iz ∧
    (integrateStepTwoBody dt b).particles.map Particle.orient
      = b.particles.map Particle.orient ∧
    (integrateStepTwoBody dt b).particles.map Particle.localPos
      = b.particles.map Particle.localPos ∧
    (integrateStepTwoBody dt b).particles.map Particle.localOrient
      = b.particles.map Particle.localOrient ∧
    (integrateStepTwoBody dt b).particles.map Particle.oldPos
      = b.particles.map Particle.oldPos ∧
    (integrateStepTwoBody dt b).particles.map Particle.mass
      = b.particles.map Particle.mass ∧
    (integrateStepTwoBody dt b).particles.map Particle.netForce
      = b.particles.map Particle.netForce ∧
    (integrateStepTwoBody dt b).particles.map Particle.netTorque
      = b.particles.map Particle.netTorque ∧
    (integrateStepTwoBody dt b).particles.map Particle.bodyVirial
      = b.particles.map Particle.bodyVirial := by
  simp [integrateStepTwoBody, set_vBody, set_v_particle, stepTwoKickBody,
    computeForceAndTorqueBody, List.map_map, Function.comp]

/-- The space-frame position of a constituent particle before wrapping:
body COM plus the basis-rotated fixed local position. -/
def bodySpacePos (b : Body) (p : Particle) : Vec3 :=
  vadd b.com (rotVec b.ex b.ey b.ez p.localPos)

/-- C9: in the full-mode projection, each constituent particle's absolute
position is the body COM plus the basis-rotated fixed local position,
wrapped once per axis: the image counters start from the body's counters,
and on each axis the coordinate is shifted by exactly one box length back
toward the box with the counter moved by exactly one relative to the
body's value when the computed coordinate falls outside `[lo, hi)`, and
left at the computed coordinate with the body's counter otherwise. -/
theorem nveRigid_C9_set_xv (dt : ℚ) (box : Box) (b : Body) (p : Particle)
    (hx : box.xlo < box.xhi) (hy : box.ylo < box.yhi) (hz : box.zlo < box.zhi) :
    (box.xhi ≤ (bodySpacePos b p).x →
      ((set_xv_particle dt box b p).pos.x, (set_xv_particle dt box b p).ix)
        = ((bodySpacePos b p).x - (box.xhi - box.xlo), b.imagex + 1)) ∧
    ((bodySpacePos b p).x < box.xlo →
      ((set_xv_particle dt box b p).pos.x, (set_xv_particle dt box b p).ix)
        = ((bodySpacePos b p).x + (box.xhi - box.xlo), b.imagex - 1)) ∧
    (box.xlo ≤ (bodySpacePos b p).x → (bodySpacePos b p).x < box.xhi →
      ((set_xv_particle dt box b p).pos.x, (set_xv_particle dt box b p).ix)
        = ((bodySpacePos b p).x, b.imagex)) ∧
    (box.yhi ≤ (bodySpacePos b p).y →
      ((set_xv_particle dt box b p).pos.y, (set_xv_particle dt box b p).iy)
        = ((bodySpacePos b p).y - (box.yhi - box.ylo), b.imagey + 1)) ∧
    ((bodySpacePos b p).y < box.ylo →
      ((set_xv_particle dt box b p).pos.y, (set_xv_particle dt box b p).iy)
        = ((bodySpacePos b p).y + (box.yhi - box.ylo), b.imagey - 1)) ∧
    (box.ylo ≤ (bodySpacePos b p).y → (bodySpacePos b p).y < box.yhi →
      ((set_xv_particle dt box b p).pos.y, (set_xv_particle dt box b p).iy)
        = ((bodySpacePos b p).y, b.imagey)) ∧
    (box.zhi ≤ (bodySpacePos b p).z →
      ((set_xv_particle dt box b p).pos.z, (set_xv_particle dt box b p).iz)
        = ((bodySpacePos b p).z - (box.zhi - box.zlo), b.imagez + 1)) ∧
    ((bodySpacePos b p).z < box.zlo →
      ((set_xv_particle dt box b p).pos.z, (set_xv_particle dt box b p).iz)
        = ((bodySpacePos b p).z + (box.zhi - box.zlo), b.imagez - 1)) ∧
    (box.zlo ≤ (bodySpacePos b p).z → (bodySpacePos b p).z < box.zhi →
      ((set_xv_particle dt box b p).pos.z, (set_xv_particle dt box b p).iz)
        = ((bodySpacePos b p).z, b.imagez)) := by
  have ex : ((set_xv_particle dt box b p).pos.x, (set_xv_particle dt box b p).ix)
      = wrapAxis box.xlo box.xhi (bodySpacePos b p).x b.imagex := rfl
  have ey : ((set_xv_particle dt box b p).pos.y, (set_xv_particle dt box b p).iy)
      = wrapAxis box.ylo box.yhi (bodySpacePos b p).y b.imagey := rfl
  have ez : ((set_xv_particle dt box b p).pos.z, (set_xv_particle dt box b p).iz)
      = wrapAxis box.zlo box.zhi (bodySpacePos b p).z b.imagez := rfl
  have wx := wrapAxis_spec box.xlo box.xhi (bodySpacePos b p).x b.imagex hx
  have wy := wrapAxis_spec box.ylo box.yhi (bodySpacePos b p).y b.imagey hy
  have wz := wrapAxis_spec box.zlo box.zhi (bodySpacePos b p).z b.imagez hz
  exact ⟨fun h => ex.trans (wx.1 h), fun h => ex.trans (wx.2.1 h),
    fun h1 h2 => ex.trans (wx.2.2.1 h1 h2),
    fun h => ey.trans (wy.1 h), fun h => ey.trans (wy.2.1 h),
    fun h1 h2 => ey.trans (wy.2.2.1 h1 h2),
    fun h => ez.trans (wz.1 h), fun h => ez.trans (wz.2.1 h),
    fun h1 h2 => ez.trans (wz.2.2.1 h1 h2)⟩

/-- The body used in the C9 witness scenario: COM at `(5,0,0)` in
`boxTen` with the standard basis. -/
def bC9 : Body :=
  { bC3 with com := ⟨5, 0, 0⟩, vel := vzero }

/-- The particle used in the C9 witness scenario: local position
`(6,1,2)`, so its computed space-frame position `(11,1,2)` lies one unit
past the high x-bound of `boxTen` and inside it on y and z. -/
def pC9 : Particle :=
  { pC2 with localPos := ⟨6, 1, 2⟩ }

/-- Concrete instantiation of the projector wrap: the particle computed
at `x = 11` in `[0,10)` is stored at `x = 1` with its image counter one
above the body's. -/
theorem nveRigid_C9_set_xv_witness :
    (set_xv_particle 1 boxTen bC9 pC9).pos.x = 1 ∧
    (set_xv_particle 1 boxTen bC9 pC9).ix = 1 := by
  have h := (nveRigid_C9_set_xv 1 boxTen bC9 pC9 (by norm_num [boxTen])
    (by norm_num [boxTen]) (by norm_num [boxTen])).1
    (by norm_num [boxTen, bodySpacePos, bC9, pC9, bC3, pC2, vadd, rotVec, vzero])
  rw [Prod.mk.injEq] at h
  constructor
  · rw [h.1]
    norm_num [boxTen, bodySpacePos, bC9, pC9, bC3, pC2, vadd, rotVec, vzero]
  · rw [h.2]
    norm_num [bC9, bC3]

/-- The particle of the C1 scenario: mass `2.0` at the body origin,
constant external net force `(1,0,0)`, zero net torque. -/
def pC1 : Particle :=
  { mass := 2
    pos := vzero
    vel := vzero
    ix := 0
    iy := 0
    iz := 0
    orient := qId
    localPos := vzero
    localOrient := qId
    oldPos := vzero
    oldVel := vzero
    netForce := ⟨1, 0, 0⟩
    netTorque := vzero
    netVirial := 0
    bodyVirial := 0 }

/-- The body of the C1 scenario: at rest with mass `2.0`, aggregated
external force `(1,0,0)`, zero torque and zero angular momentum, identity
orientation and standard basis, far from the box bounds. -/
def bC1 : Body :=
  { mass := 2
    inertia := ⟨1, 1, 1⟩
    com := vzero
    vel := vzero
    force := ⟨1, 0, 0⟩
    torque := vzero
    orientation := qId
    angmom := vzero
    angvel := vzero
    ex := ⟨1, 0, 0⟩
    ey := ⟨0, 1, 0⟩
    ez := ⟨0, 0, 1⟩
    imagex := 0
    imagey := 0
    imagez := 0
    angmomInit := true
    conjqm := qId
    particles := [pC1] }

/-- The C1 body after one full `integrateStepOne` pass (dt = 0.01). -/
def stepOneC1 : Body := set_xvBody (1 / 100) boxBig (stepOneBody (1 / 100) boxBig bC1)

/-- The C1 body after the following `integrateStepTwo` pass, in which the
aggregator re-sums the unchanged particle force `(1,0,0)`. -/
def stepTwoC1 : Body := integrateStepTwoBody (1 / 100) stepOneC1

/-- C1 fails as stated: with mass `2.0`, force `(1,0,0)` and `dt = 0.01`,
one `StepOne` yields body velocity `(dt/2)·F/m = (0.0025, 0, 0)`, not the
claimed `(0.005, 0, 0)`. -/
theorem nveRigid_C1_counterexample : stepOneC1.vel ≠ ⟨1 / 200, 0, 0⟩ := by
  norm_num [stepOneC1, set_xvBody, stepOneBody, bC1, pC1, qId, boxBig,
    vadd, vsub, smulV, crossV, rotVec, dotV, vzero, wrapAxis]

set_option maxHeartbeats 4000000

/-- Evaluation of the C1 scenario after one full `integrateStepOne`
pass: velocity `(1/400, 0, 0)`, COM `(1/40000, 0, 0)`, orientation and
basis unchanged, and the constituent particle projected accordingly. -/
theorem stepOneC1_eval :
    stepOneC1 =
      { mass := 2
        inertia := ⟨1, 1, 1⟩
        com := ⟨1 / 40000, 0, 0⟩
        vel := ⟨1 / 400, 0, 0⟩
        force := ⟨1, 0, 0⟩
        torque := ⟨0, 0, 0⟩
        orientation := ⟨1, 0, 0, 0⟩
        angmom := ⟨0, 0, 0⟩
        angvel := ⟨0, 0, 0⟩
        ex := ⟨1, 0, 0⟩
        ey := ⟨0, 1, 0⟩
        ez := ⟨0, 0, 1⟩
        imagex := 0
        imagey := 0
        imagez := 0
        angmomInit := true
        conjqm := ⟨1, 0, 0, 0⟩
        particles := [{ mass := 2
                        pos := ⟨1 / 40000, 0, 0⟩
                        vel := ⟨1 / 400, 0, 0⟩
                        ix := 0
                        iy := 0
                        iz := 0
                        orient := ⟨1, 0, 0, 0⟩
                        localPos := ⟨0, 0, 0⟩
                        localOrient := ⟨1, 0, 0, 0⟩
                        oldPos := ⟨1 / 40000, 0, 0⟩
                        oldVel := ⟨1 / 400, 0, 0⟩
                        netForce := ⟨1, 0, 0⟩
                        netTorque := ⟨0, 0, 0⟩
                        netVirial := 0
                        bodyVirial := 0 }] } := by
  norm_num [stepOneC1, set_xvBody, set_xv_particle, stepOneBody, projVel,
    advanceQuaternion, normalizeQ, rotStage, exyzFromQuaternion,
    computeAngularVelocity, bodyFrameAngVel, bodyFrameAngMom, matrix_dot,
    quatquat, bC1, pC1, qId, boxBig, vadd, vsub, smulV, crossV, rotVec,
    dotV, vzero, wrapAxis]

/-- C1 amended: in the scenario (body at rest, mass `2.0`, constant
external force `(1,0,0)`, zero torque and angular momentum, `dt = 0.01`)
one `StepOne` yields body velocity `(0.0025, 0, 0)`, advances the COM
x-coordinate by `0.0025·0.01 = 2.5e-5`, and leaves the orientation
unchanged; after the force is re-aggregated unchanged as `(1,0,0)`,
`StepTwo` yields body velocity `(0.005, 0, 0)`. -/
theorem nveRigid_C1_scenario :
    stepOneC1.vel = ⟨1 / 400, 0, 0⟩ ∧
    stepOneC1.com = ⟨1 / 40000, 0, 0⟩ ∧
    stepOneC1.orientation = bC1.orientation ∧
    stepTwoC1.vel = ⟨1 / 200, 0, 0⟩ := by
  refine ⟨by rw [stepOneC1_eval], by rw [stepOneC1_eval],
    by rw [stepOneC1_eval]; norm_num [bC1, qId], ?_⟩
  show (integrateStepTwoBody (1 / 100) stepOneC1).vel = ⟨1 / 200, 0, 0⟩
  rw [stepOneC1_eval]
  norm_num [integrateStepTwoBody, set_vBody, set_v_particle, stepTwoKickBody,
    computeForceAndTorqueBody, computeAngularVelocity, bodyFrameAngVel,
    bodyFrameAngMom, matrix_dot, projVel, vadd, vsub, smulV, crossV, rotVec,
    dotV, vzero]
